import Mathlib

/-!
Verification of the extendable HDF5 dataset container
(`HDF5DatasetExtendable` in `baseline_preprocess.py`).

The container owns two resizable on-disk arrays, `data` and `labels`.  We
embed an h5py dataset shallowly: its per-sample shape (every axis except the
growable first one), its rows, and its string attributes.  A row's contents
are abstracted to an element of a type parameter; a row that has been
allocated by a resize but never written is `none` (h5py fill value /
uninitialized storage).  Errors are returned alongside the mutated state,
because in the Python source an exception propagates while mutations made
before the failure point persist on the object and in the file.
-/

/-- The error taxonomy of the specification: invalid filename at
construction, per-sample shape disagreement on append, and metadata access
before the first append.  (In the Python source these surface as an
`AssertionError`, a broadcast `TypeError`/`ValueError` from h5py, and an
`AttributeError` respectively; the spec names them as below.) -/
inductive H5Error where
  | configurationError
  | shapeMismatchError
  | uninitializedContainerError
deriving DecidableEq, Repr

/-- A numpy batch as passed to `append`: the first axis is the sample index
(one entry of `rows` per sample) and `sampleShape` lists the remaining
axes.  Row contents are abstract. -/
structure Batch (γ : Type) where
  sampleShape : List Nat
  rows : List γ
deriving DecidableEq, Repr

/-- An h5py dataset as created by `create_dataset(..., maxshape=(None,) +
shape[1:])`: unbounded first axis, fixed `sampleShape`, attributes.  A row
is `none` when it was allocated by a resize but never written. -/
structure Dset (γ : Type) where
  sampleShape : List Nat
  rows : List (Option γ)
  attrs : List (String × String)
deriving DecidableEq, Repr

/-- `file.create_dataset(name, np.shape(b), dtype, maxshape=(None,) +
np.shape(b)[1:], data=b, ...)`: the dataset takes the batch's shape and
initial contents, with no attributes yet. -/
def Dset.create {γ : Type} (b : Batch γ) : Dset γ :=
  { sampleShape := b.sampleShape, rows := b.rows.map some, attrs := [] }

/-- The resize performed by `append`: `shape = np.array(dset.shape);
shape[0] += k; dset.resize(shape)`.  Only the first axis changes, growing
by `k`; the new rows are allocated but unwritten. -/
def Dset.resizeGrow {γ : Type} (d : Dset γ) (k : Nat) : Dset γ :=
  { d with rows := d.rows ++ List.replicate k none }

/-- `dset[-k:, ...] = b` for a batch `b` of `k` rows: replaces the last `k`
rows of the dataset.  h5py rejects the assignment when the batch's
per-sample shape differs from the dataset's (a broadcast failure), which
the spec calls `ShapeMismatchError`. -/
def Dset.writeTail {γ : Type} (d : Dset γ) (b : Batch γ) :
    Except H5Error (Dset γ) :=
  if b.sampleShape = d.sampleShape then
    .ok { d with rows := d.rows.take (d.rows.length - b.rows.length) ++ b.rows.map some }
  else
    .error .shapeMismatchError

/-- Store attribute `k := v`, overwriting an existing entry for `k` and
appending otherwise (h5py `attrs[k] = v`). -/
def setAttr (attrs : List (String × String)) (k v : String) :
    List (String × String) :=
  if attrs.any (fun p => p.1 == k) then
    attrs.map (fun p => if p.1 == k then (k, v) else p)
  else
    attrs ++ [(k, v)]

/-- Look an attribute up by key. -/
def getAttr (attrs : List (String × String)) (k : String) : Option String :=
  (attrs.find? (fun p => p.1 == k)).map (fun p => p.2)

/-- Does `pat` occur at the head of `s`? -/
def beginsWith : List Char → List Char → Bool
  | [], _ => true
  | _ :: _, [] => false
  | p :: ps, c :: cs => p == c && beginsWith ps cs

/-- Does `pat` occur contiguously anywhere in `s`? -/
def containsSeq (pat : List Char) : List Char → Bool
  | [] => beginsWith pat []
  | c :: cs => beginsWith pat (c :: cs) || containsSeq pat cs

/-- Python's substring test `sub in s`, as used by the constructor's
`assert ".hdf5" in filename`. -/
def pyContains (sub s : String) : Bool :=
  containsSeq sub.toList s.toList

/-- Follows the spec's words, for comparison with the code's check: the
output path "must denote a specific container-file extension", i.e. it ends
with `".hdf5"`. -/
def hasContainerExtension (s : String) : Bool :=
  beginsWith ".hdf5".toList.reverse s.toList.reverse

/-- The container.  `filename`, `compression` and the element dtypes (the
type parameters `α`, `β` here) are fixed at construction; `fileOpen`
records whether `__enter__` has opened the backing file; `store` holds the
`data` and `labels` datasets once the first `append` has run (`store =
none` is the source's `initialized = False` state, in which `self.dataset`
does not exist). -/
structure HDF5DatasetExtendable (α β : Type) where
  filename : String
  compression : Option String
  fileOpen : Bool
  store : Option (Dset α × Dset β)
deriving DecidableEq, Repr

namespace HDF5DatasetExtendable

/-- The class constant `VERSION = "1.0.0"`. -/
def VERSION : String := "1.0.0"

/-- `__init__`: asserts `".hdf5" in filename` (a substring test) and stores
the configuration.  No file is touched: the backing file is opened only by
`enterScope`.  The spec names the assertion failure `ConfigurationError`. -/
def new (α β : Type) (filename : String) (compression : Option String) :
    Except H5Error (HDF5DatasetExtendable α β) :=
  if pyContains ".hdf5" filename then
    .ok { filename := filename, compression := compression,
          fileOpen := false, store := none }
  else
    .error .configurationError

/-- `__enter__`: opens the backing file for writing. -/
def enterScope {α β : Type} (c : HDF5DatasetExtendable α β) :
    HDF5DatasetExtendable α β :=
  { c with fileOpen := true }

/-- `add_metadata(info)`: stamps `dataset.attrs["version"] = VERSION`, then
stores each pair of `info` in order.  Before the first `append`,
`self.dataset` does not exist and the call fails (the spec's
`UninitializedContainerError`). -/
def add_metadata {α β : Type} (c : HDF5DatasetExtendable α β)
    (info : List (String × String)) :
    HDF5DatasetExtendable α β × Option H5Error :=
  match c.store with
  | none => (c, some .uninitializedContainerError)
  | some (ds, ls) =>
      let ds1 := { ds with attrs := setAttr ds.attrs "version" VERSION }
      let ds2 := info.foldl (fun d p => { d with attrs := setAttr d.attrs p.1 p.2 }) ds1
      ({ c with store := some (ds2, ls) }, none)

/-- `append(data, labels)`: on the first call, `_init` creates both
datasets from the batches' shapes and contents; on later calls, the data
array is resized and its tail written, then the label array is resized and
its tail written.  The result pairs the mutated container with the
propagated error, if any: mutations made before a failure persist, exactly
as in the source. -/
def append {α β : Type} (c : HDF5DatasetExtendable α β)
    (data : Batch α) (labels : Batch β) :
    HDF5DatasetExtendable α β × Option H5Error :=
  match c.store with
  | none =>
      ({ c with store := some (Dset.create data, Dset.create labels) }, none)
  | some (ds, ls) =>
      let ds1 := ds.resizeGrow data.rows.length
      match ds1.writeTail data with
      | .error e => ({ c with store := some (ds1, ls) }, some e)
      | .ok ds2 =>
          let ls1 := ls.resizeGrow labels.rows.length
          match ls1.writeTail labels with
          | .error e => ({ c with store := some (ds2, ls1) }, some e)
          | .ok ls2 => ({ c with store := some (ds2, ls2) }, none)

/-- A sequence of `append` calls, stopping at the first propagated error. -/
def appendSeq {α β : Type} (c : HDF5DatasetExtendable α β) :
    List (Batch α × Batch β) → HDF5DatasetExtendable α β × Option H5Error
  | [] => (c, none)
  | b :: bs =>
      match c.append b.1 b.2 with
      | (c1, none) => appendSeq c1 bs
      | (c1, some e) => (c1, some e)

/-- Rows of the `data` array (empty before initialization). -/
def dataRows {α β : Type} (c : HDF5DatasetExtendable α β) : List (Option α) :=
  match c.store with
  | none => []
  | some (ds, _) => ds.rows

/-- Rows of the `labels` array (empty before initialization). -/
def labelRows {α β : Type} (c : HDF5DatasetExtendable α β) : List (Option β) :=
  match c.store with
  | none => []
  | some (_, ls) => ls.rows

/-- Total sample count of the `data` array. -/
def dataCount {α β : Type} (c : HDF5DatasetExtendable α β) : Nat :=
  (dataRows c).length

/-- Total sample count of the `labels` array. -/
def labelCount {α β : Type} (c : HDF5DatasetExtendable α β) : Nat :=
  (labelRows c).length

/-- The fixed per-sample shape of the `data` array, once initialized. -/
def dataShape {α β : Type} (c : HDF5DatasetExtendable α β) : Option (List Nat) :=
  c.store.map (fun p => p.1.sampleShape)

/-- The fixed per-sample shape of the `labels` array, once initialized. -/
def labelShape {α β : Type} (c : HDF5DatasetExtendable α β) : Option (List Nat) :=
  c.store.map (fun p => p.2.sampleShape)

/-- Attributes of the `data` array (metadata is attached there). -/
def dataAttrs {α β : Type} (c : HDF5DatasetExtendable α β) : List (String × String) :=
  match c.store with
  | none => []
  | some (ds, _) => ds.attrs

end HDF5DatasetExtendable

/-! ## Lemmas about attribute storage -/

theorem find?_map_overwrite (attrs : List (String × String)) (k v : String) :
    List.find? (fun p => p.1 == k) (attrs.map (fun p => if p.1 == k then (k, v) else p)) =
      (List.find? (fun p => p.1 == k) attrs).map (fun _ => (k, v)) := by
  induction attrs with
  | nil => simp
  | cons p rest ih =>
      obtain ⟨a, b⟩ := p
      by_cases hp : a = k
      · subst hp
        simp only [List.map_cons]
        rw [if_pos (by simp)]
        rw [List.find?_cons_of_pos _ (by simp), List.find?_cons_of_pos _ (by simp)]
        simp
      · simp only [List.map_cons]
        rw [if_neg (by simpa using hp)]
        rw [List.find?_cons_of_neg _ (by simpa using hp),
          List.find?_cons_of_neg _ (by simpa using hp)]
        exact ih

theorem find?_map_overwrite_other (attrs : List (String × String)) (k v k' : String)
    (hne : k' ≠ k) :
    List.find? (fun p => p.1 == k') (attrs.map (fun p => if p.1 == k then (k, v) else p)) =
      List.find? (fun p => p.1 == k') attrs := by
  induction attrs with
  | nil => simp
  | cons p rest ih =>
      obtain ⟨a, b⟩ := p
      by_cases hp : a = k
      · subst hp
        simp only [List.map_cons]
        rw [if_pos (by simp)]
        rw [List.find?_cons_of_neg _ (by simpa using Ne.symm hne),
          List.find?_cons_of_neg _ (by simpa using Ne.symm hne)]
        exact ih
      · simp only [List.map_cons]
        rw [if_neg (by simpa using hp)]
        by_cases hp' : a = k'
        · subst hp'
          rw [List.find?_cons_of_pos _ (by simp), List.find?_cons_of_pos _ (by simp)]
        · rw [List.find?_cons_of_neg _ (by simpa using hp'),
            List.find?_cons_of_neg _ (by simpa using hp')]
          exact ih

theorem getAttr_setAttr_self (attrs : List (String × String)) (k v : String) :
    getAttr (setAttr attrs k v) k = some v := by
  unfold setAttr getAttr
  by_cases h : attrs.any (fun p => p.1 == k)
  · rw [if_pos h, find?_map_overwrite]
    obtain ⟨x, hx, hpx⟩ := List.any_eq_true.1 h
    cases hfind : List.find? (fun p => p.1 == k) attrs with
    | none =>
        rw [List.find?_eq_none] at hfind
        exact absurd hpx (hfind x hx)
    | some y => simp
  · rw [if_neg h, List.find?_append]
    have hnone : List.find? (fun p => p.1 == k) attrs = none := by
      rw [List.find?_eq_none]
      intro x hx hpx
      exact h (List.any_eq_true.2 ⟨x, hx, hpx⟩)
    simp [hnone]

theorem getAttr_setAttr_other (attrs : List (String × String)) (k v k' : String)
    (hne : k' ≠ k) :
    getAttr (setAttr attrs k v) k' = getAttr attrs k' := by
  unfold setAttr getAttr
  by_cases h : attrs.any (fun p => p.1 == k)
  · rw [if_pos h, find?_map_overwrite_other attrs k v k' hne]
  · rw [if_neg h, List.find?_append]
    have h1 : (k == k') = false := beq_eq_false_iff_ne.mpr (Ne.symm hne)
    cases hfind : List.find? (fun p => p.1 == k') attrs with
    | none => simp [h1]
    | some y => simp

theorem getAttr_foldl_other (info : List (String × String)) :
    ∀ (attrs : List (String × String)) (k : String), (∀ p ∈ info, p.1 ≠ k) →
      getAttr (info.foldl (fun a p => setAttr a p.1 p.2) attrs) k = getAttr attrs k := by
  induction info with
  | nil =>
      intro attrs k _
      rfl
  | cons p rest ih =>
      intro attrs k hmem
      rw [List.foldl_cons, ih _ k (fun q hq => hmem q (List.mem_cons_of_mem p hq)),
        getAttr_setAttr_other attrs p.1 p.2 k (Ne.symm (hmem p (List.mem_cons_self p rest)))]

namespace HDF5DatasetExtendable

theorem metadata_foldl_eq {γ : Type} (info : List (String × String)) :
    ∀ d : Dset γ,
      info.foldl (fun d p => { d with attrs := setAttr d.attrs p.1 p.2 }) d =
        { d with attrs := info.foldl (fun a p => setAttr a p.1 p.2) d.attrs } := by
  induction info with
  | nil =>
      intro d
      rfl
  | cons p rest ih =>
      intro d
      simp only [List.foldl_cons, ih]

theorem add_metadata_init {α β : Type} {c : HDF5DatasetExtendable α β}
    {ds : Dset α} {ls : Dset β} (h : c.store = some (ds, ls))
    (info : List (String × String)) :
    c.add_metadata info = ({ c with store := some ({ ds with attrs := info.foldl (fun a p => setAttr a p.1 p.2) (setAttr ds.attrs "version" VERSION) }, ls) }, none) := by
  simp [add_metadata, h, metadata_foldl_eq]

end HDF5DatasetExtendable

/-! ## Structural lemmas about `append` -/

namespace HDF5DatasetExtendable

theorem take_len_append {γ : Type} (xs ys : List γ) :
    (xs ++ ys).take xs.length = xs := by
  simp

theorem append_uninit {α β : Type} {c : HDF5DatasetExtendable α β}
    (h : c.store = none) (d : Batch α) (l : Batch β) :
    c.append d l = ({ c with store := some (Dset.create d, Dset.create l) }, none) := by
  simp only [append, h]

theorem append_ok_of_shapes {α β : Type} {c : HDF5DatasetExtendable α β}
    {ds : Dset α} {ls : Dset β} (h : c.store = some (ds, ls))
    {d : Batch α} {l : Batch β}
    (hd : d.sampleShape = ds.sampleShape) (hl : l.sampleShape = ls.sampleShape) :
    c.append d l = ({ c with store := some ({ ds with rows := ds.rows ++ d.rows.map some }, { ls with rows := ls.rows ++ l.rows.map some }) }, none) := by
  simp [append, h, Dset.resizeGrow, Dset.writeTail, hd, hl,
    Nat.add_sub_cancel, take_len_append]

theorem append_data_mismatch {α β : Type} {c : HDF5DatasetExtendable α β}
    {ds : Dset α} {ls : Dset β} (h : c.store = some (ds, ls))
    {d : Batch α} (l : Batch β) (hd : d.sampleShape ≠ ds.sampleShape) :
    c.append d l = ({ c with store := some (ds.resizeGrow d.rows.length, ls) },
      some .shapeMismatchError) := by
  simp [append, h, Dset.resizeGrow, Dset.writeTail, hd]

theorem append_label_mismatch {α β : Type} {c : HDF5DatasetExtendable α β}
    {ds : Dset α} {ls : Dset β} (h : c.store = some (ds, ls))
    {d : Batch α} {l : Batch β}
    (hd : d.sampleShape = ds.sampleShape) (hl : l.sampleShape ≠ ls.sampleShape) :
    c.append d l = ({ c with store := some ({ ds with rows := ds.rows ++ d.rows.map some }, ls.resizeGrow l.rows.length) }, some .shapeMismatchError) := by
  simp [append, h, Dset.resizeGrow, Dset.writeTail, hd, hl,
    Nat.add_sub_cancel, take_len_append]

theorem append_snd_none_iff {α β : Type} {c : HDF5DatasetExtendable α β}
    {ds : Dset α} {ls : Dset β} (h : c.store = some (ds, ls))
    (d : Batch α) (l : Batch β) :
    (c.append d l).2 = none ↔
      (d.sampleShape = ds.sampleShape ∧ l.sampleShape = ls.sampleShape) := by
  constructor
  · intro hok
    by_cases hd : d.sampleShape = ds.sampleShape
    · by_cases hl : l.sampleShape = ls.sampleShape
      · exact ⟨hd, hl⟩
      · rw [append_label_mismatch h hd hl] at hok
        simp at hok
    · rw [append_data_mismatch h l hd] at hok
      simp at hok
  · rintro ⟨hd, hl⟩
    rw [append_ok_of_shapes h hd hl]

theorem append_ok_rows {α β : Type} {c : HDF5DatasetExtendable α β}
    {d : Batch α} {l : Batch β} (hok : (c.append d l).2 = none) :
    dataRows (c.append d l).1 = dataRows c ++ d.rows.map some ∧
    labelRows (c.append d l).1 = labelRows c ++ l.rows.map some := by
  cases hstore : c.store with
  | none =>
      rw [append_uninit hstore]
      simp [dataRows, labelRows, Dset.create, hstore]
  | some p =>
      obtain ⟨ds, ls⟩ := p
      obtain ⟨hd, hl⟩ := (append_snd_none_iff hstore d l).1 hok
      rw [append_ok_of_shapes hstore hd hl]
      simp [dataRows, labelRows, hstore]

theorem append_ok_counts {α β : Type} {c : HDF5DatasetExtendable α β}
    {d : Batch α} {l : Batch β} (hok : (c.append d l).2 = none) :
    dataCount (c.append d l).1 = dataCount c + d.rows.length ∧
    labelCount (c.append d l).1 = labelCount c + l.rows.length := by
  obtain ⟨h1, h2⟩ := append_ok_rows hok
  simp [dataCount, labelCount, h1, h2]

theorem append_store_shapes {α β : Type} {c : HDF5DatasetExtendable α β}
    {ds : Dset α} {ls : Dset β} (h : c.store = some (ds, ls))
    (d : Batch α) (l : Batch β) :
    ∃ ds' ls', (c.append d l).1.store = some (ds', ls') ∧
      ds'.sampleShape = ds.sampleShape ∧ ls'.sampleShape = ls.sampleShape := by
  by_cases hd : d.sampleShape = ds.sampleShape
  · by_cases hl : l.sampleShape = ls.sampleShape
    · rw [append_ok_of_shapes h hd hl]
      exact ⟨_, _, rfl, rfl, rfl⟩
    · rw [append_label_mismatch h hd hl]
      exact ⟨_, _, rfl, rfl, rfl⟩
  · rw [append_data_mismatch h l hd]
    exact ⟨_, _, rfl, rfl, rfl⟩

theorem appendSeq_store_shapes {α β : Type} (bs : List (Batch α × Batch β)) :
    ∀ (c : HDF5DatasetExtendable α β) (ds : Dset α) (ls : Dset β),
      c.store = some (ds, ls) →
      ∃ ds' ls', (appendSeq c bs).1.store = some (ds', ls') ∧
        ds'.sampleShape = ds.sampleShape ∧ ls'.sampleShape = ls.sampleShape := by
  induction bs with
  | nil =>
      intro c ds ls h
      exact ⟨ds, ls, h, rfl, rfl⟩
  | cons b bs ih =>
      intro c ds ls h
      obtain ⟨ds1, ls1, h1, e1, e2⟩ := append_store_shapes h b.1 b.2
      cases hres : c.append b.1 b.2 with
      | mk c1 err =>
          rw [hres] at h1
          cases err with
          | none =>
              obtain ⟨ds', ls', h', e1', e2'⟩ := ih c1 ds1 ls1 h1
              exact ⟨ds', ls', by simpa [appendSeq, hres] using h', e1'.trans e1, e2'.trans e2⟩
          | some e =>
              exact ⟨ds1, ls1, by simp [appendSeq, hres]; exact h1, e1, e2⟩

theorem appendSeq_ok_counts {α β : Type} (bs : List (Batch α × Batch β)) :
    ∀ (c : HDF5DatasetExtendable α β), (appendSeq c bs).2 = none →
      dataCount (appendSeq c bs).1 = dataCount c + (bs.map fun p => p.1.rows.length).sum ∧
      labelCount (appendSeq c bs).1 = labelCount c + (bs.map fun p => p.2.rows.length).sum := by
  induction bs with
  | nil =>
      intro c _
      simp [appendSeq]
  | cons b bs ih =>
      intro c hok
      cases hres : c.append b.1 b.2 with
      | mk c1 err =>
          cases err with
          | none =>
              have hstep : (c.append b.1 b.2).2 = none := by rw [hres]
              obtain ⟨hc1, hc2⟩ := append_ok_counts hstep
              rw [hres] at hc1 hc2
              have hseq : appendSeq c (b :: bs) = appendSeq c1 bs := by
                simp [appendSeq, hres]
              rw [hseq] at hok ⊢
              obtain ⟨ih1, ih2⟩ := ih c1 hok
              constructor
              · rw [ih1, hc1]
                simp [Nat.add_assoc]
              · rw [ih2, hc2]
                simp [Nat.add_assoc]
          | some e =>
              rw [show appendSeq c (b :: bs) = (c1, some e) by simp [appendSeq, hres]] at hok
              simp at hok

/-! ## Concrete fixtures used by witnesses and counterexamples -/

/-- An initialized `data` array fixture: per-sample shape `[10]`, two rows. -/
def dsA : Dset Nat := { sampleShape := [10], rows := [some 1, some 2], attrs := [] }

/-- An initialized `labels` array fixture: per-sample shape `[5]`, two rows. -/
def lsA : Dset Nat := { sampleShape := [5], rows := [some 7, some 8], attrs := [] }

/-- An initialized container fixture. -/
def cA : HDF5DatasetExtendable Nat Nat :=
  { filename := "test.hdf5", compression := none, fileOpen := true, store := some (dsA, lsA) }

/-- A freshly opened, still uninitialized container fixture. -/
def cFresh : HDF5DatasetExtendable Nat Nat :=
  { filename := "test.hdf5", compression := none, fileOpen := true, store := none }

/-- Scenario A first data batch: shape `(10, 10)`. -/
def batchD1 : Batch Nat := { sampleShape := [10], rows := List.range 10 }

/-- Scenario A first label batch: shape `(10, 5)`. -/
def batchL1 : Batch Nat := { sampleShape := [5], rows := List.range 10 }

/-- Scenario A second data batch: shape `(8, 10)`. -/
def batchD2 : Batch Nat := { sampleShape := [10], rows := (List.range 8).map (fun i => 100 + i) }

/-- Scenario A second label batch: shape `(8, 5)`. -/
def batchL2 : Batch Nat := { sampleShape := [5], rows := (List.range 8).map (fun i => 100 + i) }

/-- A data batch whose per-sample shape matches `dsA`. -/
def dGood : Batch Nat := { sampleShape := [10], rows := [30, 31] }

/-- A label batch whose per-sample shape matches `lsA`. -/
def lGood : Batch Nat := { sampleShape := [5], rows := [40] }

/-- A three-row data batch matching `dsA` (count differs from `lGood2`). -/
def dGood3 : Batch Nat := { sampleShape := [10], rows := [50, 51, 52] }

/-- A two-row label batch matching `lsA` (count differs from `dGood3`). -/
def lGood2 : Batch Nat := { sampleShape := [5], rows := [60, 61] }

/-- A data batch whose per-sample shape disagrees with `dsA`. -/
def dBad : Batch Nat := { sampleShape := [3], rows := [9] }

/-- A label batch whose per-sample shape disagrees with `lsA`. -/
def lBad : Batch Nat := { sampleShape := [7], rows := [70] }

/-! ## Claim theorems -/

/-- Claim C2 (count accumulation): for every sequence of successful appends,
the final sample count of the `data` array is the sum of the data batches'
counts and the final sample count of the `labels` array is the sum of the
label batches' counts, each computed independently of the other array. -/
theorem count_accumulation {α β : Type} (c0 : HDF5DatasetExtendable α β)
    (h0 : c0.store = none) (bs : List (Batch α × Batch β))
    (hok : (appendSeq c0 bs).2 = none) :
    dataCount (appendSeq c0 bs).1 = (bs.map fun p => p.1.rows.length).sum ∧
    labelCount (appendSeq c0 bs).1 = (bs.map fun p => p.2.rows.length).sum := by
  obtain ⟨h1, h2⟩ := appendSeq_ok_counts bs c0 hok
  have hd0 : dataCount c0 = 0 := by simp [dataCount, dataRows, h0]
  have hl0 : labelCount c0 = 0 := by simp [labelCount, labelRows, h0]
  rw [h1, h2, hd0, hl0, Nat.zero_add, Nat.zero_add]
  exact ⟨rfl, rfl⟩

theorem count_accumulation_witness :
    dataCount (appendSeq cFresh [(batchD1, batchL1), (batchD2, batchL2)]).1 =
      ([(batchD1, batchL1), (batchD2, batchL2)].map fun p => p.1.rows.length).sum ∧
    labelCount (appendSeq cFresh [(batchD1, batchL1), (batchD2, batchL2)]).1 =
      ([(batchD1, batchL1), (batchD2, batchL2)].map fun p => p.2.rows.length).sum :=
  count_accumulation cFresh rfl [(batchD1, batchL1), (batchD2, batchL2)] (by decide)

/-- Claim C3 (old rows preserved): for every successful append on an
initialized container and every row index below the respective array's
pre-append sample count, that row is unchanged by the append, in both the
`data` array and the `labels` array. -/
theorem append_preserves_old_rows {α β : Type} (c : HDF5DatasetExtendable α β)
    (ds : Dset α) (ls : Dset β) (hinit : c.store = some (ds, ls))
    (d : Batch α) (l : Batch β) (hok : (c.append d l).2 = none) :
    (∀ i, i < dataCount c → (dataRows (c.append d l).1).get? i = (dataRows c).get? i) ∧
    (∀ i, i < labelCount c → (labelRows (c.append d l).1).get? i = (labelRows c).get? i) := by
  obtain ⟨h1, h2⟩ := append_ok_rows hok
  constructor
  · intro i hi
    rw [h1, List.get?_append (by simpa [dataCount] using hi)]
  · intro i hi
    rw [h2, List.get?_append (by simpa [labelCount] using hi)]

theorem append_preserves_old_rows_witness :
    (dataRows (cA.append dGood lGood).1).get? 0 = (dataRows cA).get? 0 :=
  (append_preserves_old_rows cA dsA lsA rfl dGood lGood (by decide)).1 0 (by decide)

/-- Claim C4 (tail correctness): after any successful append of a data batch
of `c` samples and a label batch of `d` samples, each array has grown by its
own batch's count and the last `c` (resp. `d`) rows of the `data` (resp.
`labels`) array are exactly the appended batch, in order.  Instantiated in
the witness on Scenario A: batches of shapes `(10,10)/(10,5)` then
`(8,10)/(8,5)`. -/
theorem tail_correctness {α β : Type} (c : HDF5DatasetExtendable α β)
    (d : Batch α) (l : Batch β) (hok : (c.append d l).2 = none) :
    dataCount (c.append d l).1 = dataCount c + d.rows.length ∧
    labelCount (c.append d l).1 = labelCount c + l.rows.length ∧
    (dataRows (c.append d l).1).drop (dataCount c) = d.rows.map some ∧
    (labelRows (c.append d l).1).drop (labelCount c) = l.rows.map some := by
  obtain ⟨h1, h2⟩ := append_ok_rows hok
  obtain ⟨hc1, hc2⟩ := append_ok_counts hok
  refine ⟨hc1, hc2, ?_, ?_⟩
  · rw [h1]
    simp [dataCount]
  · rw [h2]
    simp [labelCount]

theorem tail_correctness_witness :
    dataCount ((cFresh.append batchD1 batchL1).1.append batchD2 batchL2).1 =
      dataCount (cFresh.append batchD1 batchL1).1 + batchD2.rows.length ∧
    labelCount ((cFresh.append batchD1 batchL1).1.append batchD2 batchL2).1 =
      labelCount (cFresh.append batchD1 batchL1).1 + batchL2.rows.length ∧
    (dataRows ((cFresh.append batchD1 batchL1).1.append batchD2 batchL2).1).drop
      (dataCount (cFresh.append batchD1 batchL1).1) = batchD2.rows.map some ∧
    (labelRows ((cFresh.append batchD1 batchL1).1.append batchD2 batchL2).1).drop
      (labelCount (cFresh.append batchD1 batchL1).1) = batchL2.rows.map some :=
  tail_correctness (cFresh.append batchD1 batchL1).1 batchD2 batchL2 (by decide)

/-- Claim C7 (pre-initialization metadata failure): on a container on which
`append` has never been called (no store exists yet), `add_metadata` fails
with `UninitializedContainerError` and changes nothing. -/
theorem pre_init_metadata_fails {α β : Type} (c : HDF5DatasetExtendable α β)
    (h : c.store = none) (info : List (String × String)) :
    c.add_metadata info = (c, some H5Error.uninitializedContainerError) := by
  simp [add_metadata, h]

theorem pre_init_metadata_fails_witness :
    cFresh.add_metadata [("x", "a")] = (cFresh, some H5Error.uninitializedContainerError) :=
  pre_init_metadata_fails cFresh rfl [("x", "a")]

/-- Claim C9 (no data/label sample-count check): `append` never compares the
two batches' sample counts; on an initialized container, an append whose
data batch count differs from its label batch count, with both per-sample
shapes matching the fixed shapes, completes without error and grows each
array by its own batch's count. -/
theorem no_count_check {α β : Type} (c : HDF5DatasetExtendable α β)
    (ds : Dset α) (ls : Dset β) (h : c.store = some (ds, ls))
    (d : Batch α) (l : Batch β) (hd : d.sampleShape = ds.sampleShape)
    (hl : l.sampleShape = ls.sampleShape) (hne : d.rows.length ≠ l.rows.length) :
    (c.append d l).2 = none ∧
    dataCount (c.append d l).1 = dataCount c + d.rows.length ∧
    labelCount (c.append d l).1 = labelCount c + l.rows.length := by
  have hok : (c.append d l).2 = none := (append_snd_none_iff h d l).2 ⟨hd, hl⟩
  obtain ⟨h1, h2⟩ := append_ok_counts hok
  exact ⟨hok, h1, h2⟩

theorem no_count_check_witness :
    (cA.append dGood3 lGood2).2 = none ∧
    dataCount (cA.append dGood3 lGood2).1 = dataCount cA + dGood3.rows.length ∧
    labelCount (cA.append dGood3 lGood2).1 = labelCount cA + lGood2.rows.length :=
  no_count_check cA dsA lsA rfl dGood3 lGood2 rfl rfl (by decide)

/-- Claim C10 (cross-array non-atomicity of a failed append): on an
initialized container, when the data batch's per-sample shape matches the
fixed data shape but the label batch's does not, the append fails with
`ShapeMismatchError`, yet the `data` array has been grown by the data
batch's count and its new tail fully written with the data batch, with no
rollback; the `labels` array holds none of the label batch's contents (its
newly allocated tail, if any, is unwritten). -/
theorem label_mismatch_nonatomic {α β : Type} (c : HDF5DatasetExtendable α β)
    (ds : Dset α) (ls : Dset β) (h : c.store = some (ds, ls))
    (d : Batch α) (l : Batch β) (hd : d.sampleShape = ds.sampleShape)
    (hl : l.sampleShape ≠ ls.sampleShape) :
    (c.append d l).2 = some H5Error.shapeMismatchError ∧
    dataRows (c.append d l).1 = dataRows c ++ d.rows.map some ∧
    dataCount (c.append d l).1 = dataCount c + d.rows.length ∧
    labelRows (c.append d l).1 = labelRows c ++ List.replicate l.rows.length none := by
  rw [append_label_mismatch h hd hl]
  refine ⟨rfl, ?_, ?_, ?_⟩ <;>
    simp [dataRows, labelRows, dataCount, h, Dset.resizeGrow]

/-- Claim C1 (shape fixation): the first `append` fixes each array's
per-sample shape to that of its first batch; across any later successful
appends the shapes stay fixed, a later append whose per-sample shape
differs (on either array) fails with `ShapeMismatchError` propagated to the
caller, and a later append whose per-sample shapes both match succeeds. -/
theorem shape_fixation {α β : Type} (c0 : HDF5DatasetExtendable α β)
    (h0 : c0.store = none) (b0 : Batch α) (l0 : Batch β)
    (bs : List (Batch α × Batch β))
    (hseq : (appendSeq (c0.append b0 l0).1 bs).2 = none) :
    dataShape (c0.append b0 l0).1 = some b0.sampleShape ∧
    labelShape (c0.append b0 l0).1 = some l0.sampleShape ∧
    dataShape (appendSeq (c0.append b0 l0).1 bs).1 = some b0.sampleShape ∧
    labelShape (appendSeq (c0.append b0 l0).1 bs).1 = some l0.sampleShape ∧
    (∀ (d : Batch α) (l : Batch β),
      (d.sampleShape ≠ b0.sampleShape ∨ l.sampleShape ≠ l0.sampleShape) →
      ((appendSeq (c0.append b0 l0).1 bs).1.append d l).2 = some H5Error.shapeMismatchError) ∧
    (∀ (d : Batch α) (l : Batch β),
      d.sampleShape = b0.sampleShape → l.sampleShape = l0.sampleShape →
      ((appendSeq (c0.append b0 l0).1 bs).1.append d l).2 = none) := by
  have hc1 : (c0.append b0 l0).1.store = some (Dset.create b0, Dset.create l0) := by
    rw [append_uninit h0]
  obtain ⟨ds', ls', hst, e1, e2⟩ :=
    appendSeq_store_shapes bs (c0.append b0 l0).1 (Dset.create b0) (Dset.create l0) hc1
  have e1' : ds'.sampleShape = b0.sampleShape := e1
  have e2' : ls'.sampleShape = l0.sampleShape := e2
  refine ⟨?_, ?_, ?_, ?_, ?_, ?_⟩
  · simp [dataShape, hc1, Dset.create]
  · simp [labelShape, hc1, Dset.create]
  · simp [dataShape, hst, e1']
  · simp [labelShape, hst, e2']
  · intro d l hne
    by_cases hd2 : d.sampleShape = ds'.sampleShape
    · have hl2 : l.sampleShape ≠ ls'.sampleShape := by
        rcases hne with hne | hne
        · exact absurd (hd2.trans e1') hne
        · rw [e2']
          exact hne
      rw [append_label_mismatch hst hd2 hl2]
    · rw [append_data_mismatch hst l hd2]
  · intro d l hd hl
    exact (append_snd_none_iff hst d l).2 ⟨hd.trans e1'.symm, hl.trans e2'.symm⟩

theorem shape_fixation_witness :
    dataShape (cFresh.append batchD1 batchL1).1 = some batchD1.sampleShape :=
  (shape_fixation cFresh rfl batchD1 batchL1 [(batchD2, batchL2)] (by decide)).1

/-- Claim C5 counterexample: on the initialized fixture, an append whose
data batch's per-sample shape disagrees with the fixed shape propagates
`ShapeMismatchError`, yet the data array's sample count after the failed
append does NOT equal its count before it (the resize at line 101 precedes
the failing write at line 102), refuting the claimed pre-resize extent. -/
theorem append_mismatch_pre_resize_cex :
    (cA.append dBad lGood).2 = some H5Error.shapeMismatchError ∧
    ¬ dataCount (cA.append dBad lGood).1 = dataCount cA := by
  decide

/-- Claim C5, amended: when an append fails because the data batch's
per-sample shape disagrees with the shape fixed at initialization, the
error is propagated immediately and the append aborted, but the data array
is left at its post-resize extent — grown by the batch's sample count, its
prior rows unchanged and its newly allocated tail rows never written — and
the label array is untouched. -/
theorem append_mismatch_post_resize {α β : Type} (c : HDF5DatasetExtendable α β)
    (ds : Dset α) (ls : Dset β) (h : c.store = some (ds, ls))
    (d : Batch α) (l : Batch β) (hd : d.sampleShape ≠ ds.sampleShape) :
    (c.append d l).2 = some H5Error.shapeMismatchError ∧
    dataCount (c.append d l).1 = dataCount c + d.rows.length ∧
    (∀ i, i < dataCount c → (dataRows (c.append d l).1).get? i = (dataRows c).get? i) ∧
    (dataRows (c.append d l).1).drop (dataCount c) = List.replicate d.rows.length none ∧
    labelRows (c.append d l).1 = labelRows c := by
  rw [append_data_mismatch h l hd]
  refine ⟨rfl, ?_, ?_, ?_, ?_⟩
  · simp [dataCount, dataRows, h, Dset.resizeGrow]
  · intro i hi
    have hi' : i < ds.rows.length := by simpa [dataCount, dataRows, h] using hi
    simp only [dataRows, Dset.resizeGrow, h, List.get?_eq_getElem?]
    exact List.getElem?_append_left hi'
  · simp [dataRows, Dset.resizeGrow, h, dataCount, List.drop_left]
  · simp [labelRows, h]

theorem append_mismatch_post_resize_witness :
    (cA.append dBad lGood).2 = some H5Error.shapeMismatchError ∧
    dataCount (cA.append dBad lGood).1 = dataCount cA + dBad.rows.length ∧
    (∀ i, i < dataCount cA → (dataRows (cA.append dBad lGood).1).get? i = (dataRows cA).get? i) ∧
    (dataRows (cA.append dBad lGood).1).drop (dataCount cA) = List.replicate dBad.rows.length none ∧
    labelRows (cA.append dBad lGood).1 = labelRows cA :=
  append_mismatch_post_resize cA dsA lsA rfl dBad lGood (by decide)

/-- Claim C6 counterexample: `add_metadata` stamps `version` before storing
the caller's pairs, so a call whose info map itself contains the key
`"version"` overwrites the stamp; afterwards the `version` attribute does
NOT equal the fixed version string, refuting the claim's "after any
add_metadata call" part. -/
theorem metadata_version_override_cex :
    (cA.add_metadata [("version", "2.0.0")]).2 = none ∧
    ¬ getAttr (dataAttrs (cA.add_metadata [("version", "2.0.0")]).1) "version" =
        some VERSION := by
  decide

/-- Claim C6, amended: on an initialized container,
`add_metadata [("x", "a")]` followed by `add_metadata [("x", "b")]` leaves
attribute `x` equal to `"b"` (repeated calls with the same key overwrite
the prior value) and leaves `version` equal to the fixed version string;
moreover after any `add_metadata` call whose info map does not itself
contain the key `"version"`, the `version` attribute equals the fixed
version string `"1.0.0"` (a caller-supplied `"version"` entry would
overwrite the stamp, which is written first). -/
theorem metadata_idempotence {α β : Type} (c : HDF5DatasetExtendable α β)
    (ds : Dset α) (ls : Dset β) (h : c.store = some (ds, ls)) :
    getAttr (dataAttrs ((c.add_metadata [("x", "a")]).1.add_metadata [("x", "b")]).1) "x" =
      some "b" ∧
    getAttr (dataAttrs ((c.add_metadata [("x", "a")]).1.add_metadata [("x", "b")]).1) "version" =
      some VERSION ∧
    (∀ info, (∀ p ∈ info, p.1 ≠ "version") →
      getAttr (dataAttrs (c.add_metadata info).1) "version" = some VERSION) := by
  have hs1 : (c.add_metadata [("x", "a")]).1.store =
      some ({ ds with attrs := setAttr (setAttr ds.attrs "version" VERSION) "x" "a" }, ls) := by
    rw [add_metadata_init h]
    rfl
  refine ⟨?_, ?_, ?_⟩
  · rw [add_metadata_init hs1]
    exact getAttr_setAttr_self _ "x" "b"
  · rw [add_metadata_init hs1]
    show getAttr (setAttr (setAttr (setAttr (setAttr ds.attrs "version" VERSION) "x" "a") "version" VERSION) "x" "b") "version" = some VERSION
    rw [getAttr_setAttr_other _ "x" "b" "version" (by decide)]
    exact getAttr_setAttr_self _ "version" VERSION
  · intro info hmem
    rw [add_metadata_init h info]
    show getAttr (List.foldl (fun a p => setAttr a p.1 p.2) (setAttr ds.attrs "version" VERSION) info) "version" = some VERSION
    rw [getAttr_foldl_other info _ "version" hmem]
    exact getAttr_setAttr_self _ "version" VERSION

theorem metadata_idempotence_witness :
    getAttr (dataAttrs ((cA.add_metadata [("x", "a")]).1.add_metadata [("x", "b")]).1) "x" =
      some "b" :=
  (metadata_idempotence cA dsA lsA rfl).1

/-- Claim C8 counterexample: the constructor checks that `".hdf5"` occurs
anywhere in the filename, not that the filename has the `.hdf5` extension;
the path `"data.hdf5.bak"` lacks the container-file extension yet
construction succeeds, refuting the claim that every such path is
rejected with `ConfigurationError`. -/
theorem construction_extension_cex :
    hasContainerExtension "data.hdf5.bak" = false ∧
    new Nat Nat "data.hdf5.bak" none =
      .ok { filename := "data.hdf5.bak", compression := none,
            fileOpen := false, store := none } := by
  constructor
  · decide
  · rfl

/-- Claim C8, amended: construction rejects with `ConfigurationError`
exactly those output paths in which `".hdf5"` does not occur as a substring
(a weaker check than requiring the container-file extension: a path such as
`"data.hdf5.bak"` is accepted); for every accepted path, construction
touches no file — the returned container has no open file handle and no
arrays until scoped acquisition opens the backing file. -/
theorem construction_validation (α β : Type) (filename : String)
    (comp : Option String) :
    (pyContains ".hdf5" filename = false →
      new α β filename comp = .error H5Error.configurationError) ∧
    (∀ c : HDF5DatasetExtendable α β, new α β filename comp = .ok c →
      c.filename = filename ∧ c.compression = comp ∧ c.fileOpen = false ∧ c.store = none) := by
  constructor
  · intro h
    simp [new, h]
  · intro c hc
    unfold new at hc
    by_cases h : pyContains ".hdf5" filename = true
    · rw [if_pos h] at hc
      injection hc with hc
      subst hc
      exact ⟨rfl, rfl, rfl, rfl⟩
    · rw [if_neg h] at hc
      exact Except.noConfusion hc

theorem construction_validation_witness :
    new Nat Nat "nope.txt" none = .error H5Error.configurationError :=
  (construction_validation Nat Nat "nope.txt" none).1 (by decide)

theorem label_mismatch_nonatomic_witness :
    (cA.append dGood lBad).2 = some H5Error.shapeMismatchError ∧
    dataRows (cA.append dGood lBad).1 = dataRows cA ++ dGood.rows.map some ∧
    dataCount (cA.append dGood lBad).1 = dataCount cA + dGood.rows.length ∧
    labelRows (cA.append dGood lBad).1 = labelRows cA ++ List.replicate lBad.rows.length none :=
  label_mismatch_nonatomic cA dsA lsA rfl dGood lBad rfl (by decide)

end HDF5DatasetExtendable
